import Mathlib

/-!
Shallow embedding of `src/fiber_arts_finder.py` (classes `Pattern`, `Shop`,
`Yarn`, `Graph`) and proofs settling the specification claims about it.

Python strings are modelled as Lean `String`; Python `int` as `Int`;
Python `None`-able values as `Option`; raised exceptions as `Except PyErr`.
-/

namespace FAF

/-- Python exception outcomes that the embedded code can raise. -/
inductive PyErr where
  | valueError
  | indexError
  | attributeError
deriving DecidableEq, Repr

instance instDecEqExcept {ε α : Type} [DecidableEq ε] [DecidableEq α] :
    DecidableEq (Except ε α)
  | .error e, .error f =>
    if h : e = f then isTrue (by rw [h]) else isFalse fun hc => h (by injection hc)
  | .error _, .ok _ => isFalse fun hc => Except.noConfusion hc
  | .ok _, .error _ => isFalse fun hc => Except.noConfusion hc
  | .ok a, .ok b =>
    if h : a = b then isTrue (by rw [h]) else isFalse fun hc => h (by injection hc)

/-- Split a character list at every occurrence of `sep`; like Python
`str.split(sep)` for a one-character separator, the result always has at
least one (possibly empty) piece. -/
def splitChar (sep : Char) : List Char → List (List Char)
  | [] => [[]]
  | c :: cs =>
    match splitChar sep cs with
    | [] => [[]]
    | piece :: rest =>
      if c = sep then [] :: piece :: rest else (c :: piece) :: rest

/-- Python `s.split(sep)` for a one-character separator. -/
def pySplit (sep : Char) (s : String) : List String :=
  (splitChar sep s.data).map fun cs => String.mk cs

/-- Python `s.strip()`: remove leading and trailing whitespace. -/
def pyStrip (s : String) : String :=
  String.mk (((s.data.dropWhile Char.isWhitespace).reverse.dropWhile
    Char.isWhitespace).reverse)

/-- Title-casing over characters; the flag records whether the previous
character was alphabetic (Python `str.title` uppercases a letter that
follows a non-letter and lowercases the rest). -/
def titleChars : Bool → List Char → List Char
  | _, [] => []
  | prevAlpha, c :: cs =>
    if c.isAlpha then
      (if prevAlpha then c.toLower else c.toUpper) :: titleChars true cs
    else c :: titleChars false cs

/-- Python `s.title()`. -/
def pyTitle (s : String) : String := String.mk (titleChars false s.data)

/-- Value of a non-empty all-decimal-digit character list; `none` if the
list is empty or contains a non-digit. -/
def allDigitsVal (l : List Char) : Option Nat :=
  if l = [] then none
  else l.foldl (fun acc c =>
    match acc with
    | none => none
    | some n => if c.isDigit then some (n * 10 + (c.toNat - 48)) else none)
    (some 0)

/-- Python `int(s)` on an already-stripped string: optional sign followed by
decimal digits; `none` models the `ValueError` raised otherwise. -/
def pyInt (s : String) : Option Int :=
  match s.data with
  | '-' :: rest => (allDigitsVal rest).map fun n => -(n : Int)
  | '+' :: rest => (allDigitsVal rest).map fun n => (n : Int)
  | l => (allDigitsVal l).map fun n => (n : Int)

/-- The scanning loop of `Yarn.getMainFiber` (source lines 106-119): state is
`(highestpct, mainFiber)`.  For each entry the percentage part (before the
first `%`) is stripped; the literal `"None"`/`"null"` tokens and the empty
string are skipped, a non-numeric percentage raises `ValueError` via
`int()`, a zero percentage is falsy under `parts[0].strip() and
int(parts[0].strip())` and is skipped, and otherwise the entry replaces the
running best whenever its percentage is `>=` the running best. -/
def fiberLoop : List String → Int → Option String → Except PyErr (Int × Option String)
  | [], highestpct, mainFiber => .ok (highestpct, mainFiber)
  | content :: rest, highestpct, mainFiber =>
    let parts := pySplit '%' content
    let p0 := pyStrip (parts.headD "")
    if p0 = "None" ∨ p0 = "null" then fiberLoop rest highestpct mainFiber
    else if p0 = "" then fiberLoop rest highestpct mainFiber
    else
      match pyInt p0 with
      | none => .error .valueError
      | some pct =>
        if pct = 0 then fiberLoop rest highestpct mainFiber
        else
          match (pySplit '%' content)[1]? with
          | none => .error .indexError
          | some p1 =>
            let fiber := pyTitle (pyStrip p1)
            if pct ≥ highestpct then fiberLoop rest pct (some fiber)
            else fiberLoop rest highestpct mainFiber

/-- `Yarn.getMainFiber` (source lines 104-123), as a function of the
hydrated `fiberContent` list.  After the loop, a falsy `mainFiber`
(`None` or the empty string) triggers the fallback to the first entry's
fiber name. -/
def getMainFiber (fiberContent : List String) : Except PyErr String :=
  match fiberLoop fiberContent 0 none with
  | .error e => .error e
  | .ok (_, mainFiber) =>
    if mainFiber.getD "" = "" then
      match fiberContent.head? with
      | none => .error .indexError
      | some c0 =>
        match (pySplit '%' c0)[1]? with
        | none => .error .indexError
        | some p1 => .ok (pyTitle (pyStrip p1))
    else .ok (mainFiber.getD "")

/-- The entries the `getMainFiber` loop passes over without selecting and
without raising: percentage part equal to the `"None"`/`"null"` token,
empty, or parsing to the integer zero. -/
def skippedEntry (c : String) : Prop :=
  pyStrip ((pySplit '%' c).headD "") = "None" ∨
  pyStrip ((pySplit '%' c).headD "") = "null" ∨
  pyStrip ((pySplit '%' c).headD "") = "" ∨
  pyInt (pyStrip ((pySplit '%' c).headD "")) = some 0

instance : DecidablePred skippedEntry := fun c => by
  unfold skippedEntry; exact inferInstance

/-! ## Entity model -/

/-- Single-quote character, for Python `repr` of strings inside list
formatting. -/
def sq : String := String.singleton (Char.ofNat 39)

/-- Python `str(x)` for an optional integer: `None` prints as `"None"`. -/
def pyStrOptInt : Option Int → String
  | none => "None"
  | some n => toString n

/-- Python `str(x)` for an optional string value: `None` prints as
`"None"`, a string prints as itself (no quotes). -/
def pyStrOptStr : Option String → String
  | none => "None"
  | some s => s

/-- Python `repr` of a string (single-quoted), as used when a list of
strings is interpolated into an f-string. -/
def reprOfStr (s : String) : String := sq ++ s ++ sq

/-- Python `repr` of an optional string. -/
def reprOfOptStr : Option String → String
  | none => "None"
  | some s => reprOfStr s

/-- Python `str` of a list whose elements have already been rendered with
`repr`: `"[e1, e2, ...]"`. -/
def pyReprList (xs : List String) : String :=
  "[" ++ String.intercalate ", " xs ++ "]"

/-- `Pattern.__init__`'s `self.info` string (source line 24). -/
def patternBaseInfo (id : Int) (name link designer : String) : String :=
  "Pattern ID: " ++ toString id ++ "\nPattern Name: " ++ name ++
  "\nPattern Designer: " ++ designer ++ "\nPattern Link: " ++ link

/-- The `Pattern` class.  The four trailing `Option` fields model the
attributes that exist on the Python object only after `getFullData`
(hydration): `none` means the attribute is absent from `__dict__`. -/
structure Pattern where
  id : Int
  name : String
  free : Bool
  link : String
  designer : String
  info : String
  currency : Option String := none
  price : Option String := none
  recyarn : Option (List (Option Int)) := none
  category : Option (List (Option String)) := none
deriving DecidableEq, Repr

/-- `Pattern.__init__` (source lines 17-24). -/
def mkPattern (id : Int) (name : String) (free : Bool) (link designer : String) :
    Pattern :=
  { id, name, free, link, designer, info := patternBaseInfo id name link designer }

/-- The supplementary fields served by the external pattern detail endpoint
(`/patterns/{id}.json`): currency, price, the `yarn_id` of each pack, and
the name of each pattern category.  Prices are modelled by their string
rendering. -/
structure PatternDetail where
  currency : Option String := none
  price : Option String := none
  packs : List (Option Int) := []
  categories : List (Option String) := []

/-- `Pattern.getFullData` (source lines 26-42): merges the detail-endpoint
fields into the pattern and rebuilds `info`.  The external fetch is
modelled by the environment `env` mapping a pattern id to its detail
record. -/
def Pattern.getFullData (env : Int → PatternDetail) (p : Pattern) : Pattern :=
  let data := env p.id
  { p with
    currency := data.currency
    price := data.price
    recyarn := some data.packs
    category := some data.categories
    info := patternBaseInfo p.id p.name p.link p.designer ++
      "\nPattern Recommended Yarns by ID: " ++
        pyReprList (data.packs.map pyStrOptInt) ++
      "\nPattern Category: " ++ pyReprList (data.categories.map reprOfOptStr) ++
      "\nPattern Price: " ++ pyStrOptStr data.price ++ " " ++
        pyStrOptStr data.currency }

/-- The `Shop` class (source lines 48-69).  Coordinates are nullable; a
numeric or numeric-string coordinate is modelled by its real value (the
Python code coerces with `float` before use). -/
structure Shop where
  id : Int
  name : String
  lat : Option ℝ
  long : Option ℝ
  city : String
  info : String

/-- `Shop.__init__` (source lines 49-56). -/
def mkShop (id : Int) (name : String) (lat long : Option ℝ) (city : String) :
    Shop :=
  { id, name, lat, long, city,
    info := "Shop ID: " ++ toString id ++ "\nShop Name: " ++ name ++
      "\nShop City: " ++ city }

/-- `Shop.calcDistance` (source lines 62-69): Haversine distance in miles
with Earth radius `R = 3963.1`, between `(lat, long)` and
`(otherlat, otherlong)` in decimal degrees. -/
noncomputable def calcDistance (lat long otherlat otherlong : ℝ) : ℝ :=
  let R : ℝ := 3963.1
  let dLat := (lat - otherlat) * (Real.pi / 180)
  let dLong := (long - otherlong) * (Real.pi / 180)
  let a := Real.sin (dLat / 2) * Real.sin (dLat / 2) +
    Real.cos (lat * (Real.pi / 180)) * Real.cos (otherlat * (Real.pi / 180)) *
      (Real.sin (dLong / 2) * Real.sin (dLong / 2))
  2 * Real.arcsin (Real.sqrt a) * R

/-- The `Yarn` class.  `fiberContent` exists only after `getFullData`
(hydration).  The declared weight is modelled by its string rendering. -/
structure Yarn where
  id : Int
  name : String
  brand : String
  weight : Option String
  info : String
  fiberContent : Option (List String) := none
deriving DecidableEq, Repr

/-- `Yarn.__init__` (source lines 72-78). -/
def mkYarn (id : Int) (name brand : String) (weight : Option String) : Yarn :=
  { id, name, brand, weight,
    info := "Yarn ID: " ++ toString id ++ "\nYarn Name: " ++ name ++
      "\nYarn Brand: " ++ brand ++ "\nYarn Weight: " ++ pyStrOptStr weight }

/-- Rendering of one fiber entry, `f"{percentage}% {material}"` (source
line 96): the pair is `(fiber.get("percentage"), fiber_type name)`. -/
def renderFiberEntry (p : Option Int × Option String) : String :=
  pyStrOptInt p.1 ++ "% " ++ pyStrOptStr p.2

/-- `Yarn.getFullData` (source lines 80-98): fetches the fiber breakdown
from the detail endpoint — modelled by `env`, mapping a yarn id to its
list of `(percentage, fiber-name)` pairs — renders each entry as
`"{percentage}% {material}"`, and rebuilds `info`. -/
def Yarn.getFullData (env : Int → List (Option Int × Option String)) (y : Yarn) :
    Yarn :=
  let fc := (env y.id).map renderFiberEntry
  { y with
    fiberContent := some fc
    info := "Yarn ID: " ++ toString y.id ++ "\nYarn Name: " ++ y.name ++
      "\nYarn Brand: " ++ y.brand ++ "\nYarn Weight: " ++ pyStrOptStr y.weight ++
      "\nYarn Fiber Content:" ++ pyReprList (fc.map reprOfStr) }

/-! ## Catalog index, cache snapshot and load -/

/-- The in-memory state of the `Graph` class: the three entity
collections. -/
structure Catalog where
  patterns : List Pattern
  shops : List Shop
  yarns : List Yarn

/-- One serialized pattern record: `Graph.cacheData` (source lines 186-192)
dumps `object.__dict__`, so the record carries every attribute currently on
the object, hydration-derived ones included. -/
structure PatternRec where
  id : Int
  name : String
  free : Bool
  link : String
  designer : String
  info : String
  currency : Option String
  price : Option String
  recyarn : Option (List (Option Int))
  category : Option (List (Option String))
deriving DecidableEq, Repr

/-- One serialized shop record (`object.__dict__` of a `Shop`). -/
structure ShopRec where
  id : Int
  name : String
  lat : Option ℝ
  long : Option ℝ
  city : String
  info : String

/-- One serialized yarn record (`object.__dict__` of a `Yarn`). -/
structure YarnRec where
  id : Int
  name : String
  brand : String
  weight : Option String
  info : String
  fiberContent : Option (List String)
deriving DecidableEq, Repr

/-- `Graph.cacheData` on the pattern collection: each object's full
`__dict__` is written out. -/
def cachePatterns (ps : List Pattern) : List PatternRec :=
  ps.map fun p =>
    { id := p.id, name := p.name, free := p.free, link := p.link,
      designer := p.designer, info := p.info, currency := p.currency,
      price := p.price, recyarn := p.recyarn, category := p.category }

/-- `Graph.cacheData` on the shop collection. -/
def cacheShops (ss : List Shop) : List ShopRec :=
  ss.map fun s =>
    { id := s.id, name := s.name, lat := s.lat, long := s.long,
      city := s.city, info := s.info }

/-- `Graph.cacheData` on the yarn collection. -/
def cacheYarns (ys : List Yarn) : List YarnRec :=
  ys.map fun y =>
    { id := y.id, name := y.name, brand := y.brand, weight := y.weight,
      info := y.info, fiberContent := y.fiberContent }

/-- `Graph.loadCache` with `type == "pattern"` (source line 200): rebuilds
each pattern from `id`, `name` (re-stripped and re-title-cased), `free`,
`link` and `designer` only; every other stored key is ignored. -/
def loadPatternsCache (rs : List PatternRec) : List Pattern :=
  rs.map fun r =>
    mkPattern r.id (pyTitle (pyStrip r.name)) r.free r.link
      (pyTitle (pyStrip r.designer))

/-- `Graph.loadCache` with `type == "shop"` (source line 202). -/
def loadShopsCache (rs : List ShopRec) : List Shop :=
  rs.map fun r => mkShop r.id (pyTitle (pyStrip r.name)) r.lat r.long r.city

/-- `Graph.loadCache` with `type == "yarn"` (source line 204). -/
def loadYarnsCache (rs : List YarnRec) : List Yarn :=
  rs.map fun r =>
    mkYarn r.id (pyTitle (pyStrip r.name)) (pyTitle (pyStrip r.brand)) r.weight

/-! ## Keyed lookups -/

/-- Result of a `getPattern`/`getShop`/`getYarn` call: the Python function
can return `False` (no selector), fall off the end returning `None`,
return a string, or raise. -/
inductive GetResult where
  | retFalse
  | retNone
  | retStr (s : String)
  | raise (e : PyErr)
deriving DecidableEq, Repr

/-- Python truthiness of an optional integer argument (`if id:`): absent or
zero is falsy. -/
def truthyOptInt : Option Int → Bool
  | some n => n != 0
  | none => false

/-- Python truthiness of an optional string argument (`if name:`): absent
or empty is falsy. -/
def truthyOptStr : Option String → Bool
  | some s => s != ""
  | none => false

/-- The yarn-list accumulation in the id branch of `Graph.getPattern`
(source lines 216-220): for each recommended yarn id in order, every yarn
of the index with that id contributes `f"{yarn.brand} {yarn.name}"`. -/
def recYarnNamesId (yarns : List Yarn) (rec : List (Option Int)) : List String :=
  (rec.map fun r =>
    (yarns.filter fun y => some y.id == r).map fun y => y.brand ++ " " ++ y.name).flatten

/-- The yarn-list accumulation in the name branch of `Graph.getPattern`
(source lines 228-232): entries are `f"{yarn.name} by {yarn.brand}"`. -/
def recYarnNamesByName (yarns : List Yarn) (rec : List (Option Int)) : List String :=
  (rec.map fun r =>
    (yarns.filter fun y => some y.id == r).map fun y => y.name ++ " by " ++ y.brand).flatten

/-- Linear scan of the id branch of `Graph.getPattern` (source lines
211-222). -/
def patternIdScan (env : Int → PatternDetail) (yarns : List Yarn) :
    List Pattern → Int → GetResult
  | [], _ => .retStr "Sorry, we couldn't find your pattern."
  | p :: rest, i =>
    if p.id = i then
      let pFull := p.getFullData env
      .retStr (pFull.info ++ "\nRecommended Yarns by Name: " ++
        pyReprList ((recYarnNamesId yarns (pFull.recyarn.getD [])).map reprOfStr))
    else patternIdScan env yarns rest i

/-- Linear scan of the name branch of `Graph.getPattern` (source lines
223-234); the probe name has already been title-cased. -/
def patternNameScan (env : Int → PatternDetail) (yarns : List Yarn) :
    List Pattern → String → GetResult
  | [], _ => .retStr "Sorry, we couldn't find your pattern."
  | p :: rest, n =>
    if p.name = n then
      let pFull := p.getFullData env
      .retStr (pFull.info ++ "\nRecommended Yarns by Brand + Name: " ++
        pyReprList ((recYarnNamesByName yarns (pFull.recyarn.getD [])).map reprOfStr))
    else patternNameScan env yarns rest n

/-- `Graph.getPattern` (source lines 209-236): a falsy `id` falls through
to the `name` branch; if both are falsy the function returns `False`. -/
def getPattern (env : Int → PatternDetail) (cat : Catalog)
    (id : Option Int) (name : Option String) : GetResult :=
  if truthyOptInt id then patternIdScan env cat.yarns cat.patterns (id.getD 0)
  else if truthyOptStr name then
    patternNameScan env cat.yarns cat.patterns (pyTitle (name.getD ""))
  else .retFalse

/-- Id scan of `Graph.getShop` (source lines 240-245).  The `Shop` class
defines no `getFullData` method, so on the first match the call
`shop.getFullData()` raises `AttributeError`; with no match the loop falls
off the end and the function returns `None`. -/
def shopIdScan : List Shop → Int → GetResult
  | [], _ => .retNone
  | s :: rest, i =>
    if s.id = i then .raise .attributeError else shopIdScan rest i

/-- Name scan of `Graph.getShop` (source lines 246-251); same
`AttributeError` on the first match. -/
def shopNameScan : List Shop → String → GetResult
  | [], _ => .retNone
  | s :: rest, n =>
    if s.name = n then .raise .attributeError else shopNameScan rest n

/-- `Graph.getShop` (source lines 238-253). -/
def getShop (cat : Catalog) (id : Option Int) (name : Option String) : GetResult :=
  if truthyOptInt id then shopIdScan cat.shops (id.getD 0)
  else if truthyOptStr name then shopNameScan cat.shops (pyTitle (name.getD ""))
  else .retFalse

/-- Id scan of `Graph.getYarn` (source lines 257-262). -/
def yarnIdScan (env : Int → List (Option Int × Option String)) :
    List Yarn → Int → GetResult
  | [], _ => .retNone
  | y :: rest, i =>
    if y.id = i then .retStr (y.getFullData env).info else yarnIdScan env rest i

/-- Name scan of `Graph.getYarn` (source lines 263-268). -/
def yarnNameScan (env : Int → List (Option Int × Option String)) :
    List Yarn → String → GetResult
  | [], _ => .retNone
  | y :: rest, n =>
    if y.name = n then .retStr (y.getFullData env).info else yarnNameScan env rest n

/-- `Graph.getYarn` (source lines 255-270). -/
def getYarn (env : Int → List (Option Int × Option String)) (cat : Catalog)
    (id : Option Int) (name : Option String) : GetResult :=
  if truthyOptInt id then yarnIdScan env cat.yarns (id.getD 0)
  else if truthyOptStr name then yarnNameScan env cat.yarns (pyTitle (name.getD ""))
  else .retFalse

/-! ## Yarn-recommendation network builder -/

/-- The `networkx` graph built by `Graph.createYarnGraph`: insertion-ordered
nodes (key paired with its `type` attribute, `none` when a node was
auto-created by `add_edge`) and insertion-ordered undirected edges. -/
structure YGraph where
  nodes : List (String × Option String)
  edges : List (String × String)
deriving DecidableEq, Repr

/-- The empty `nx.Graph()`. -/
def YGraph.empty : YGraph := ⟨[], []⟩

/-- `graph.add_node(key, type=ty)`: a fresh node is appended, an existing
node has its attributes updated. -/
def addNode (g : YGraph) (key ty : String) : YGraph :=
  if g.nodes.any fun p => p.1 == key then
    { g with nodes := g.nodes.map fun p => if p.1 == key then (p.1, some ty) else p }
  else { g with nodes := g.nodes ++ [(key, some ty)] }

/-- Whether an undirected edge between `u` and `v` is present. -/
def hasEdge (edges : List (String × String)) (u v : String) : Bool :=
  edges.any fun e => (e.1 == u && e.2 == v) || (e.1 == v && e.2 == u)

/-- `graph.add_edge(u, v)`: missing endpoints are auto-added (without a
`type` attribute), and the undirected edge is added if not yet present. -/
def addEdge (g : YGraph) (u v : String) : YGraph :=
  let g1 :=
    if g.nodes.any (fun p => p.1 == u) then g
    else { g with nodes := g.nodes ++ [(u, none)] }
  let g2 :=
    if g1.nodes.any (fun p => p.1 == v) then g1
    else { g1 with nodes := g1.nodes ++ [(v, none)] }
  if hasEdge g2.edges u v then g2 else { g2 with edges := g2.edges ++ [(u, v)] }

/-- `collections.Counter` over a list: distinct elements in first-occurrence
order, each with its multiplicity. -/
def counterList (l : List String) : List (String × Nat) :=
  l.foldl (fun acc s =>
    if acc.any fun p => p.1 == s then
      acc.map fun p => if p.1 == s then (p.1, p.2 + 1) else p
    else acc ++ [(s, 1)]) []

/-- Stable insertion into a count-descending list: the new element goes
before the first entry whose count does not exceed its own, so an earlier
element stays ahead of later elements with an equal count. -/
def insertByCount (x : String × Nat) : List (String × Nat) → List (String × Nat)
  | [] => [x]
  | y :: ys => if y.2 > x.2 then y :: insertByCount x ys else x :: y :: ys

/-- Stable sort by descending count (the order `Counter.most_common`
produces: descending count, ties in first-encountered order). -/
def sortByCount : List (String × Nat) → List (String × Nat)
  | [] => []
  | x :: xs => insertByCount x (sortByCount xs)

/-- `Counter(l).most_common(n)`. -/
def mostCommon (n : Nat) (l : List String) : List (String × Nat) :=
  (sortByCount (counterList l)).take n

/-- Return value of `Graph.createYarnGraph`: the no-matching-patterns
branch (source line 284) returns the bare graph, the normal branch (source
line 299) returns the pair of the graph and the top-5 list. -/
inductive YarnGraphResult where
  | graphOnly (g : YGraph)
  | withTop (g : YGraph) (top : List (String × Nat))
deriving DecidableEq, Repr

/-- Inner step of `Graph.createYarnGraph` (source lines 292-296) for one
matching yarn: add the yarn node labelled `"{name} by {brand}"`, the edge
to the pattern node, and record the label in `designerYarns`. -/
def yarnStep (pname : String) (acc : YGraph × List String) (y : Yarn) :
    YGraph × List String :=
  let yarnName := y.name ++ " by " ++ y.brand
  let g := addNode acc.1 yarnName "yarn"
  let g := addEdge g pname yarnName
  (g, acc.2 ++ [y.name ++ " by " ++ y.brand])

/-- Step for one recommended-yarn id (source lines 290-296): every yarn of
the index whose id equals it is processed in index order. -/
def recStep (yarns : List Yarn) (pname : String) (acc : YGraph × List String)
    (r : Option Int) : YGraph × List String :=
  (yarns.filter fun y => some y.id == r).foldl (yarnStep pname) acc

/-- Step for one matching pattern (source lines 287-296): hydrate it, add
its node (typed `pattern`), then process each recommended yarn id. -/
def patternStep (env : Int → PatternDetail) (yarns : List Yarn)
    (acc : YGraph × List String) (p : Pattern) : YGraph × List String :=
  let pFull := p.getFullData env
  let g := addNode acc.1 pFull.name "pattern"
  (pFull.recyarn.getD []).foldl (recStep yarns pFull.name) (g, acc.2)

/-- `Graph.createYarnGraph` (source lines 272-299).  With no matching
patterns the bare empty graph is returned; otherwise the graph is built
and paired with `Counter(designerYarns).most_common(5)`. -/
def createYarnGraph (env : Int → PatternDetail) (cat : Catalog)
    (designer : String) : YarnGraphResult :=
  let designerClean := pyTitle (pyStrip designer)
  let designerPatterns := cat.patterns.filter fun p => p.designer == designerClean
  if designerPatterns.isEmpty then .graphOnly YGraph.empty
  else
    let r := designerPatterns.foldl (patternStep env cat.yarns) (YGraph.empty, [])
    .withTop r.1 (mostCommon 5 r.2)

/-! ## Shop-proximity network builder

City geocoding is an external collaborator, so `createShopGraph` takes the
resolved city point `(cityLat, cityLong)` directly.  The top-3
degree-centrality ranking the Python function returns alongside the graph
is not modelled (no claim concerns it); the `Option` return captures the
`return None` of the no-shops-in-radius branch. -/

/-- The node key `f"{shop.name} ({shop.city})"` (source line 315). -/
def shopLabel (s : Shop) : String := s.name ++ " (" ++ s.city ++ ")"

/-- `float()` coercion of a nullable coordinate; every call site is guarded
so that the `none` case is unreachable. -/
def optR (o : Option ℝ) : ℝ := o.getD 0

/-- The `networkx` graph of `Graph.createShopGraph`: insertion-ordered
nodes (key paired with its `object` attribute) and undirected edges with
their `length` attribute. -/
structure ShopGraph where
  nodes : List (String × Shop)
  edges : List ((String × String) × ℝ)

/-- `graph.add_node(key, object=s)`: a fresh node is appended, an existing
node has its `object` attribute replaced. -/
def addNodeS (nodes : List (String × Shop)) (key : String) (s : Shop) :
    List (String × Shop) :=
  if nodes.any fun p => p.1 == key then
    nodes.map fun p => if p.1 == key then (p.1, s) else p
  else nodes ++ [(key, s)]

/-- Whether an edge entry is the undirected edge `{a, b}`. -/
def edgeMatches (e : (String × String) × ℝ) (a b : String) : Bool :=
  (e.1.1 == a && e.1.2 == b) || (e.1.1 == b && e.1.2 == a)

/-- `graph.add_edge(a, b, length=w)`: an existing undirected edge has its
`length` updated, otherwise the edge is appended. -/
def addEdgeS (es : List ((String × String) × ℝ)) (a b : String) (w : ℝ) :
    List ((String × String) × ℝ) :=
  if es.any fun e => edgeMatches e a b then
    es.map fun e => if edgeMatches e a b then (e.1, w) else e
  else es ++ [((a, b), w)]

/-- The `length` attribute of the undirected edge `{a, b}`, if present. -/
def edgeLookup (es : List ((String × String) × ℝ)) (a b : String) : Option ℝ :=
  (es.find? fun e => edgeMatches e a b).map fun e => e.2

/-- Node-filtering loop of `Graph.createShopGraph` (source lines 312-315):
a shop is added when `shop.lat and shop.long` is truthy (both coordinates
present and nonzero — `None` and `0.0` are both falsy in Python) and its
Haversine distance to the city point is at most 50 miles. -/
noncomputable def shopNodesAux (cityLat cityLong : ℝ) :
    List Shop → List (String × Shop) → List (String × Shop)
  | [], acc => acc
  | s :: rest, acc =>
    let acc' :=
      match s.lat, s.long with
      | some la, some lo =>
        if la ≠ 0 ∧ lo ≠ 0 then
          if calcDistance la lo cityLat cityLong ≤ 50 then
            addNodeS acc (shopLabel s) s
          else acc
        else acc
      | _, _ => acc
    shopNodesAux cityLat cityLong rest acc'

/-- Inner edge loop (source lines 318-320): from node `a` (carrying shop
`sa`), add an edge to every other node, weighted by the Haversine distance
between the two stored shop objects. -/
noncomputable def addEdgesFrom (a : String) (sa : Shop) :
    List (String × Shop) → List ((String × String) × ℝ) →
      List ((String × String) × ℝ)
  | [], es => es
  | (b, sb) :: rest, es =>
    addEdgesFrom a sa rest
      (if b ≠ a then
        addEdgeS es a b
          (calcDistance (optR sa.lat) (optR sa.long) (optR sb.lat) (optR sb.long))
      else es)

/-- Outer edge loop (source lines 317-320). -/
noncomputable def shopEdgesLoop (allNodes : List (String × Shop)) :
    List (String × Shop) → List ((String × String) × ℝ) →
      List ((String × String) × ℝ)
  | [], es => es
  | (a, sa) :: rest, es => shopEdgesLoop allNodes rest (addEdgesFrom a sa allNodes es)

/-- The node list built by `Graph.createShopGraph` for a given shop
collection and resolved city point. -/
noncomputable def shopGraphNodes (shops : List Shop) (cityLat cityLong : ℝ) :
    List (String × Shop) :=
  shopNodesAux cityLat cityLong shops []

/-- The edge list built by `Graph.createShopGraph` over its node list. -/
noncomputable def shopGraphEdges (shops : List Shop) (cityLat cityLong : ℝ) :
    List ((String × String) × ℝ) :=
  shopEdgesLoop (shopGraphNodes shops cityLat cityLong)
    (shopGraphNodes shops cityLat cityLong) []

/-- `Graph.createShopGraph` (source lines 301-330): build the nodes, then
the complete weighted edge set; with no nodes, print and `return None`
(source lines 322-324), otherwise return the graph. -/
noncomputable def createShopGraph (shops : List Shop) (cityLat cityLong : ℝ) :
    Option ShopGraph :=
  let ns := shopGraphNodes shops cityLat cityLong
  let es := shopGraphEdges shops cityLat cityLong
  if ns.isEmpty then none else some ⟨ns, es⟩

/-- The inclusion condition the code actually applies to a shop: both
coordinates present and truthy (nonzero) and within 50 miles of the city
point. -/
def shopIncluded (s : Shop) (cityLat cityLong : ℝ) : Prop :=
  ∃ la lo, s.lat = some la ∧ s.long = some lo ∧ la ≠ 0 ∧ lo ≠ 0 ∧
    calcDistance la lo cityLat cityLong ≤ 50

/-- The inclusion condition as the specification words it: both coordinates
present and within 50 miles of the city point. -/
def specShopIncluded (s : Shop) (cityLat cityLong : ℝ) : Prop :=
  s.lat.isSome ∧ s.long.isSome ∧
    calcDistance (optR s.lat) (optR s.long) cityLat cityLong ≤ 50

/-- An edge entry is well-formed with respect to a node list: its two
endpoints are distinct keys carrying stored shops, and its weight is the
Haversine distance between those two stored shops. -/
def edgeWeightOk (nodes : List (String × Shop)) (e : (String × String) × ℝ) : Prop :=
  ∃ sx sy : Shop, (e.1.1, sx) ∈ nodes ∧ (e.1.2, sy) ∈ nodes ∧ e.1.1 ≠ e.1.2 ∧
    e.2 = calcDistance (optR sx.lat) (optR sx.long) (optR sy.lat) (optR sy.long)

/-- Every edge entry of the list is well-formed for the node list. -/
def goodEdges (nodes : List (String × Shop)) (es : List ((String × String) × ℝ)) :
    Prop :=
  ∀ e ∈ es, edgeWeightOk nodes e

/-- No two entries of the edge list denote the same unordered pair: every
unordered pair has at most one edge. -/
def distinctPairs (es : List ((String × String) × ℝ)) : Prop :=
  es.Pairwise fun e f => edgeMatches f e.1.1 e.1.2 = false

/-! ## Concrete fixtures

A small concrete catalog used by the spec's worked example (designer
"Jane Doe" with patterns `P1`, `P2` and yarns `Y1`, `Y2`) and by the
witnesses of the hypothesis-bearing theorems below. -/

/-- Detail endpoint for the example: pattern 1 recommends yarns 11 and 12,
pattern 2 recommends yarn 11. -/
def exEnv : Int → PatternDetail := fun i =>
  if i = 1 then { packs := [some 11, some 12] }
  else if i = 2 then { packs := [some 11] }
  else {}

/-- Example yarn `Y1` (id 11, brand `B1`). -/
def exY1 : Yarn := mkYarn 11 "Y1" "B1" (some "worsted")

/-- Example yarn `Y2` (id 12, brand `B2`). -/
def exY2 : Yarn := mkYarn 12 "Y2" "B2" (some "dk")

/-- Example pattern `P1` by Jane Doe. -/
def exP1 : Pattern := mkPattern 1 "P1" true "l1" "Jane Doe"

/-- Example pattern `P2` by Jane Doe. -/
def exP2 : Pattern := mkPattern 2 "P2" false "l2" "Jane Doe"

/-- Example shop. -/
def exS : Shop := mkShop 7 "Knit Hub" (some 1) (some 1) "Springfield"

/-- A second example shop at the same point, for the shop-graph witness. -/
def exS2 : Shop := mkShop 8 "Wool Works" (some 1) (some 1) "Springfield"

/-- A shop sitting exactly on the equator: its latitude `0.0` is present
but falsy in Python. -/
def exS0 : Shop := mkShop 9 "Equator Yarns" (some 0) (some (-75)) "Quito"

/-- The example catalog index. -/
def exCat : Catalog := ⟨[exP1, exP2], [exS], [exY1, exY2]⟩

/-! ## Helper lemmas: fiber resolution -/

theorem pyInt_some_not_token {s : String} {p : Int} (h : pyInt s = some p) :
    s ≠ "None" ∧ s ≠ "null" ∧ s ≠ "" := by
  refine ⟨?_, ?_, ?_⟩ <;> rintro rfl
  · rw [show pyInt "None" = none from by decide] at h; exact Option.noConfusion h
  · rw [show pyInt "null" = none from by decide] at h; exact Option.noConfusion h
  · rw [show pyInt "" = none from by decide] at h; exact Option.noConfusion h

theorem fiberLoop_skip_cons {c : String} (h : skippedEntry c)
    (rest : List String) (hv : Int) (m : Option String) :
    fiberLoop (c :: rest) hv m = fiberLoop rest hv m := by
  rcases h with h1 | h2 | h3 | h4
  · simp only [List.headD_eq_head?_getD] at h1
    simp [fiberLoop, h1]
  · simp only [List.headD_eq_head?_getD] at h2
    simp [fiberLoop, h2]
  · simp only [List.headD_eq_head?_getD] at h3
    simp [fiberLoop, h3]
  · obtain ⟨t1, t2, t3⟩ := pyInt_some_not_token h4
    simp only [List.headD_eq_head?_getD] at h4 t1 t2 t3
    simp [fiberLoop, h4, t1, t2, t3]

theorem fiberLoop_error_cons {c : String}
    (h1 : pyInt (pyStrip ((pySplit '%' c).headD "")) = none)
    (h2 : pyStrip ((pySplit '%' c).headD "") ≠ "None")
    (h3 : pyStrip ((pySplit '%' c).headD "") ≠ "null")
    (h4 : pyStrip ((pySplit '%' c).headD "") ≠ "")
    (rest : List String) (hv : Int) (m : Option String) :
    fiberLoop (c :: rest) hv m = .error .valueError := by
  simp only [List.headD_eq_head?_getD] at h1 h2 h3 h4
  simp [fiberLoop, h1, h2, h3, h4]

theorem fiberLoop_select_cons {c : String} {p : Int} {p1 : String}
    (hsplit : (pySplit '%' c)[1]? = some p1)
    (hp : pyInt (pyStrip ((pySplit '%' c).headD "")) = some p)
    (hpz : p ≠ 0) (rest : List String) (hv : Int) (m : Option String)
    (hge : p ≥ hv) :
    fiberLoop (c :: rest) hv m = fiberLoop rest p (some (pyTitle (pyStrip p1))) := by
  obtain ⟨t1, t2, t3⟩ := pyInt_some_not_token hp
  simp only [List.headD_eq_head?_getD] at hp t1 t2 t3
  simp [fiberLoop, hp, t1, t2, t3, hpz, hsplit, hge]

theorem fiberLoop_all_skip {l : List String} (h : ∀ c ∈ l, skippedEntry c)
    (hv : Int) (m : Option String) : fiberLoop l hv m = .ok (hv, m) := by
  induction l with
  | nil => rfl
  | cons c rest ih =>
    rw [fiberLoop_skip_cons (h c (List.mem_cons_self c rest)) rest hv m]
    exact ih fun x hx => h x (List.mem_cons_of_mem c hx)

theorem fiberLoop_append (bs es : List String) (hv : Int) (m : Option String) :
    fiberLoop (bs ++ es) hv m =
      match fiberLoop bs hv m with
      | .ok hm => fiberLoop es hm.1 hm.2
      | .error e => .error e := by
  induction bs generalizing hv m with
  | nil => rfl
  | cons c rest ih =>
    rw [List.cons_append]
    show fiberLoop (c :: (rest ++ es)) hv m = _
    simp only [fiberLoop]
    split
    · exact ih hv m
    · split
      · exact ih hv m
      · split
        · rfl
        · split
          · exact ih hv m
          · split
            · rfl
            · split
              · exact ih _ _
              · exact ih hv m

theorem fiberLoop_append_ok {bs : List String} {hv0 hv : Int}
    {m0 m : Option String} (h : fiberLoop bs hv0 m0 = .ok (hv, m))
    (es : List String) :
    fiberLoop (bs ++ es) hv0 m0 = fiberLoop es hv m := by
  rw [fiberLoop_append, h]

/-! ## Claims C3, C4, C5: dominant-fiber resolution -/

/-- **C4, counterexample.**  The claim says an entry with a zero percentage
is not skipped and participates in the maximum selection, and that
non-numeric percentages are skipped without failing.  On
`["None% Silk", "0% Wool", "0% Cotton"]` every entry is skipped (the zero
ones included), so the code falls back to the first entry and returns
`"Silk"` where the claim's reading would select `"Wool"`; and on
`["abc% Wool"]` the code raises `ValueError` instead of skipping. -/
theorem C4_counterexample :
    getMainFiber ["None% Silk", "0% Wool", "0% Cotton"] = .ok "Silk" ∧
    getMainFiber ["abc% Wool"] = .error .valueError ∧
    ("Silk" : String) ≠ "Wool" := by decide

/-- **C4, amended.**  The loop skips exactly the entries whose percentage
part (before the first `%`, stripped) is the literal `"None"`/`"null"`
token, the empty string, or parses to the integer zero — so a zero
percentage is treated like an absent one; an entry whose percentage part is
otherwise non-numeric is not skipped but raises `ValueError`. -/
theorem C4_skip_set (c cBad : String) (rest restB : List String)
    (hv hvB : Int) (m mB : Option String)
    (hc : skippedEntry c)
    (hb1 : pyInt (pyStrip ((pySplit '%' cBad).headD "")) = none)
    (hb2 : pyStrip ((pySplit '%' cBad).headD "") ≠ "None")
    (hb3 : pyStrip ((pySplit '%' cBad).headD "") ≠ "null")
    (hb4 : pyStrip ((pySplit '%' cBad).headD "") ≠ "") :
    fiberLoop (c :: rest) hv m = fiberLoop rest hv m ∧
    fiberLoop (cBad :: restB) hvB mB = .error .valueError :=
  ⟨fiberLoop_skip_cons hc rest hv m,
   fiberLoop_error_cons hb1 hb2 hb3 hb4 restB hvB mB⟩

/-- Witness for `C4_skip_set` at `"0% Wool"` (skipped) and `"abc% Wool"`
(raises). -/
theorem C4_skip_set_witness :
    fiberLoop ["0% Wool", "30% Nylon"] 0 none = fiberLoop ["30% Nylon"] 0 none ∧
    fiberLoop ["abc% Wool"] 0 none = .error .valueError :=
  C4_skip_set "0% Wool" "abc% Wool" ["30% Nylon"] [] 0 0 none none
    (by decide) (by decide) (by decide) (by decide) (by decide)

/-- **C3, counterexample.**  The claim says a later entry with a percentage
equal to the running best does not replace it (first-wins ties).  The code
uses `>=`, so on `["50% Wool", "50% Cotton"]` the result is `"Cotton"`,
not `"Wool"`. -/
theorem C3_counterexample :
    getMainFiber ["50% Wool", "50% Cotton"] = .ok "Cotton" ∧
    (Except.ok "Cotton" : Except PyErr String) ≠ .ok "Wool" := by decide

/-- **C3, amended.**  Ties are resolved in favour of the **last** entry
reaching the maximum percentage: appending an entry whose usable nonzero
percentage is `>=` the running best makes that entry's (title-cased) fiber
name the result. -/
theorem C3_tie_last_entry_wins (bs : List String) (e : String)
    (hv : Int) (m : Option String) (p : Int) (p1 : String)
    (hloop : fiberLoop bs 0 none = .ok (hv, m))
    (hsplit : (pySplit '%' e)[1]? = some p1)
    (hp : pyInt (pyStrip ((pySplit '%' e).headD "")) = some p)
    (hpz : p ≠ 0) (hge : p ≥ hv)
    (hf : pyTitle (pyStrip p1) ≠ "") :
    getMainFiber (bs ++ [e]) = .ok (pyTitle (pyStrip p1)) := by
  have hl := fiberLoop_append_ok hloop [e]
  rw [fiberLoop_select_cons hsplit hp hpz [] hv m hge] at hl
  unfold getMainFiber
  rw [hl]
  simp [fiberLoop, hf]

/-- Witness for `C3_tie_last_entry_wins` on `["50% Wool", "50% Cotton"]`. -/
theorem C3_tie_last_entry_wins_witness :
    getMainFiber (["50% Wool"] ++ ["50% Cotton"]) = .ok (pyTitle (pyStrip " Cotton")) :=
  C3_tie_last_entry_wins ["50% Wool"] "50% Cotton" 50 (some "Wool") 50 " Cotton"
    (by decide) (by decide) (by decide) (by decide) (by decide) (by decide)

/-- **C5, counterexample.**  The claim says every non-empty breakdown in
which no entry has a usable percentage resolves to the first entry's fiber
name.  On `["12.5% Wool"]` no entry has a usable percentage (the decimal
string is non-numeric for `int()`), yet resolution raises `ValueError`
instead of returning `"Wool"`. -/
theorem C5_counterexample :
    getMainFiber ["12.5% Wool"] = .error .valueError ∧
    getMainFiber ["12.5% Wool"] ≠ .ok "Wool" := by decide

/-- **C5, amended.**  For a non-empty breakdown all of whose entries are
skipped (percentage part `"None"`/`"null"`, empty, or zero — entries with
any other non-numeric percentage instead raise), resolution returns the
first entry's fiber name, title-cased, ignoring that entry's percentage
part. -/
theorem C5_fallback_first_entry (fc : List String) (c0 p1 : String)
    (hne : fc.head? = some c0)
    (hall : ∀ c ∈ fc, skippedEntry c)
    (hsplit : (pySplit '%' c0)[1]? = some p1) :
    getMainFiber fc = .ok (pyTitle (pyStrip p1)) := by
  unfold getMainFiber
  rw [fiberLoop_all_skip hall 0 none]
  simp [hne, hsplit]

/-- Witness for `C5_fallback_first_entry` on the spec's example
`[(null, "Cotton")]`, rendered `"None% Cotton"`, which resolves to
`"Cotton"`. -/
theorem C5_fallback_first_entry_witness :
    getMainFiber ["None% Cotton"] = .ok (pyTitle (pyStrip " Cotton")) :=
  C5_fallback_first_entry ["None% Cotton"] "None% Cotton" " Cotton"
    (by decide) (by decide) (by decide)

/-! ## Helper lemmas: Haversine distance -/

theorem calcDistance_self (lat long : ℝ) : calcDistance lat long lat long = 0 := by
  simp [calcDistance]

theorem calcDistance_comm (la lo ka ko : ℝ) :
    calcDistance la lo ka ko = calcDistance ka ko la lo := by
  have hs : ∀ x y : ℝ,
      Real.sin ((x - y) * (Real.pi / 180) / 2) * Real.sin ((x - y) * (Real.pi / 180) / 2) =
      Real.sin ((y - x) * (Real.pi / 180) / 2) * Real.sin ((y - x) * (Real.pi / 180) / 2) := by
    intro x y
    rw [show (y - x) * (Real.pi / 180) / 2 = -((x - y) * (Real.pi / 180) / 2) by ring,
      Real.sin_neg]
    ring
  simp only [calcDistance]
  rw [hs la ka, hs lo ko,
    mul_comm (Real.cos (la * (Real.pi / 180))) (Real.cos (ka * (Real.pi / 180)))]

/-! ## Claim C8: distance symmetry and self-distance -/

/-- **C8, confirmed.**  For all coordinate pairs (numeric-string inputs are
coerced by `float()` before use, so both are modelled by their real
values), the Haversine distance with Earth radius 3963.1 satisfies
`distance(A,B) = distance(B,A)` and `distance(A,A) = 0` — exactly, hence in
particular within the claimed `1e-6` miles. -/
theorem C8_distance_symmetric_and_self_zero (lat long otherlat otherlong : ℝ) :
    calcDistance lat long otherlat otherlong = calcDistance otherlat otherlong lat long ∧
    calcDistance lat long lat long = 0 :=
  ⟨calcDistance_comm lat long otherlat otherlong, calcDistance_self lat long⟩

/-! ## Helper lemmas: keyed lookups -/

theorem patternIdScan_not_found (env : Int → PatternDetail) (ys : List Yarn)
    {ps : List Pattern} {i : Int} (h : ∀ p ∈ ps, p.id ≠ i) :
    patternIdScan env ys ps i = .retStr "Sorry, we couldn't find your pattern." := by
  induction ps with
  | nil => rfl
  | cons p rest ih =>
    rw [patternIdScan, if_neg (h p (List.mem_cons_self p rest))]
    exact ih fun q hq => h q (List.mem_cons_of_mem p hq)

theorem patternNameScan_not_found (env : Int → PatternDetail) (ys : List Yarn)
    {ps : List Pattern} {n : String} (h : ∀ p ∈ ps, p.name ≠ n) :
    patternNameScan env ys ps n = .retStr "Sorry, we couldn't find your pattern." := by
  induction ps with
  | nil => rfl
  | cons p rest ih =>
    rw [patternNameScan, if_neg (h p (List.mem_cons_self p rest))]
    exact ih fun q hq => h q (List.mem_cons_of_mem p hq)

theorem shopIdScan_not_found {ss : List Shop} {i : Int}
    (h : ∀ s ∈ ss, s.id ≠ i) : shopIdScan ss i = .retNone := by
  induction ss with
  | nil => rfl
  | cons s rest ih =>
    rw [shopIdScan, if_neg (h s (List.mem_cons_self s rest))]
    exact ih fun q hq => h q (List.mem_cons_of_mem s hq)

theorem shopNameScan_not_found {ss : List Shop} {n : String}
    (h : ∀ s ∈ ss, s.name ≠ n) : shopNameScan ss n = .retNone := by
  induction ss with
  | nil => rfl
  | cons s rest ih =>
    rw [shopNameScan, if_neg (h s (List.mem_cons_self s rest))]
    exact ih fun q hq => h q (List.mem_cons_of_mem s hq)

theorem yarnIdScan_not_found (env : Int → List (Option Int × Option String))
    {ys : List Yarn} {i : Int} (h : ∀ y ∈ ys, y.id ≠ i) :
    yarnIdScan env ys i = .retNone := by
  induction ys with
  | nil => rfl
  | cons y rest ih =>
    rw [yarnIdScan, if_neg (h y (List.mem_cons_self y rest))]
    exact ih fun q hq => h q (List.mem_cons_of_mem y hq)

theorem yarnNameScan_not_found (env : Int → List (Option Int × Option String))
    {ys : List Yarn} {n : String} (h : ∀ y ∈ ys, y.name ≠ n) :
    yarnNameScan env ys n = .retNone := by
  induction ys with
  | nil => rfl
  | cons y rest ih =>
    rw [yarnNameScan, if_neg (h y (List.mem_cons_self y rest))]
    exact ih fun q hq => h q (List.mem_cons_of_mem y hq)

theorem shopIdScan_found {ss : List Shop} {i : Int}
    (h : ∃ s ∈ ss, s.id = i) : shopIdScan ss i = .raise .attributeError := by
  induction ss with
  | nil => obtain ⟨s, hs, _⟩ := h; exact absurd hs (List.not_mem_nil s)
  | cons s rest ih =>
    by_cases hsi : s.id = i
    · rw [shopIdScan, if_pos hsi]
    · rw [shopIdScan, if_neg hsi]
      obtain ⟨t, ht, hti⟩ := h
      rcases List.mem_cons.mp ht with rfl | htr
      · exact absurd hti hsi
      · exact ih ⟨t, htr, hti⟩

theorem shopNameScan_found {ss : List Shop} {n : String}
    (h : ∃ s ∈ ss, s.name = n) : shopNameScan ss n = .raise .attributeError := by
  induction ss with
  | nil => obtain ⟨s, hs, _⟩ := h; exact absurd hs (List.not_mem_nil s)
  | cons s rest ih =>
    by_cases hsn : s.name = n
    · rw [shopNameScan, if_pos hsn]
    · rw [shopNameScan, if_neg hsn]
      obtain ⟨t, ht, htn⟩ := h
      rcases List.mem_cons.mp ht with rfl | htr
      · exact absurd htn hsn
      · exact ih ⟨t, htr, htn⟩

/-! ## Claim C7: selector validation and not-found results -/

/-- **C7, confirmed.**  For each of the three lookups, supplying neither an
id nor a name returns `False` — the code's missing-selector failure signal
(the spec's MissingSelector error) — and supplying a (truthy) selector that
matches no record yields a not-found result, not an exception:
`getPattern` returns the apology string, `getShop` and `getYarn` fall off
their loops and return `None`. -/
theorem C7_lookup_selector_outcomes (env : Int → PatternDetail)
    (yenv : Int → List (Option Int × Option String)) (cat : Catalog)
    (i : Int) (n : String) (hi : i ≠ 0) (hn : n ≠ "")
    (hpi : ∀ p ∈ cat.patterns, p.id ≠ i)
    (hpn : ∀ p ∈ cat.patterns, p.name ≠ pyTitle n)
    (hsi : ∀ s ∈ cat.shops, s.id ≠ i)
    (hsn : ∀ s ∈ cat.shops, s.name ≠ pyTitle n)
    (hyi : ∀ y ∈ cat.yarns, y.id ≠ i)
    (hyn : ∀ y ∈ cat.yarns, y.name ≠ pyTitle n) :
    getPattern env cat none none = .retFalse ∧
    getShop cat none none = .retFalse ∧
    getYarn yenv cat none none = .retFalse ∧
    getPattern env cat (some i) none = .retStr "Sorry, we couldn't find your pattern." ∧
    getPattern env cat none (some n) = .retStr "Sorry, we couldn't find your pattern." ∧
    getShop cat (some i) none = .retNone ∧
    getShop cat none (some n) = .retNone ∧
    getYarn yenv cat (some i) none = .retNone ∧
    getYarn yenv cat none (some n) = .retNone := by
  refine ⟨rfl, rfl, rfl, ?_, ?_, ?_, ?_, ?_, ?_⟩
  · simp only [getPattern, truthyOptInt, truthyOptStr, bne_iff_ne, ne_eq, hi,
      not_false_eq_true, if_true, Option.getD_some]
    exact patternIdScan_not_found env cat.yarns hpi
  · simp only [getPattern, truthyOptInt, truthyOptStr, bne_iff_ne, ne_eq, hn,
      not_false_eq_true, if_true, if_false, Option.getD_some]
    exact patternNameScan_not_found env cat.yarns hpn
  · simp only [getShop, truthyOptInt, truthyOptStr, bne_iff_ne, ne_eq, hi,
      not_false_eq_true, if_true, Option.getD_some]
    exact shopIdScan_not_found hsi
  · simp only [getShop, truthyOptInt, truthyOptStr, bne_iff_ne, ne_eq, hn,
      not_false_eq_true, if_true, if_false, Option.getD_some]
    exact shopNameScan_not_found hsn
  · simp only [getYarn, truthyOptInt, truthyOptStr, bne_iff_ne, ne_eq, hi,
      not_false_eq_true, if_true, Option.getD_some]
    exact yarnIdScan_not_found yenv hyi
  · simp only [getYarn, truthyOptInt, truthyOptStr, bne_iff_ne, ne_eq, hn,
      not_false_eq_true, if_true, if_false, Option.getD_some]
    exact yarnNameScan_not_found yenv hyn

/-- Witness for `C7_lookup_selector_outcomes` on the example catalog with
the unmatched selectors `99` and `"Zzz"`. -/
theorem C7_lookup_selector_outcomes_witness :
    getPattern (fun _ => {}) exCat none none = .retFalse ∧
    getShop exCat none none = .retFalse ∧
    getYarn (fun _ => []) exCat none none = .retFalse ∧
    getPattern (fun _ => {}) exCat (some 99) none =
      .retStr "Sorry, we couldn't find your pattern." ∧
    getPattern (fun _ => {}) exCat none (some "Zzz") =
      .retStr "Sorry, we couldn't find your pattern." ∧
    getShop exCat (some 99) none = .retNone ∧
    getShop exCat none (some "Zzz") = .retNone ∧
    getYarn (fun _ => []) exCat (some 99) none = .retNone ∧
    getYarn (fun _ => []) exCat none (some "Zzz") = .retNone :=
  C7_lookup_selector_outcomes (fun _ => {}) (fun _ => []) exCat 99 "Zzz"
    (by decide) (by decide) (by decide) (by decide) (by decide) (by decide)
    (by decide) (by decide)

/-! ## Claim C10: matching shop lookups raise AttributeError -/

/-- **C10, confirmed.**  `Shop` defines no `getFullData` method, so any
shop lookup by (truthy) id or name that matches some record reaches
`shop.getFullData()` and raises `AttributeError`: a successful match never
returns the shop's information. -/
theorem C10_matching_shop_lookup_raises (cat : Catalog) (i : Int) (n : String)
    (hi : i ≠ 0) (hn : n ≠ "")
    (hexi : ∃ s ∈ cat.shops, s.id = i)
    (hexn : ∃ s ∈ cat.shops, s.name = pyTitle n) :
    getShop cat (some i) none = .raise .attributeError ∧
    getShop cat none (some n) = .raise .attributeError := by
  constructor
  · simp only [getShop, truthyOptInt, truthyOptStr, bne_iff_ne, ne_eq, hi,
      not_false_eq_true, if_true, Option.getD_some]
    exact shopIdScan_found hexi
  · simp only [getShop, truthyOptInt, truthyOptStr, bne_iff_ne, ne_eq, hn,
      not_false_eq_true, if_true, if_false, Option.getD_some]
    exact shopNameScan_found hexn

/-- Witness for `C10_matching_shop_lookup_raises` on the example shop
(id 7, name `"Knit Hub"`). -/
theorem C10_matching_shop_lookup_raises_witness :
    getShop exCat (some 7) none = .raise .attributeError ∧
    getShop exCat none (some "knit hub") = .raise .attributeError :=
  C10_matching_shop_lookup_raises exCat 7 "knit hub" (by decide) (by decide)
    (by decide) (by decide)

/-! ## Claim C1: snapshot/load round-trip -/

/-- **C1, counterexample.**  A hydrated pattern does not survive the
round-trip: its `recyarn` (and the other hydration-derived fields) are
dropped by `loadCache`, which rebuilds patterns from `id`, `name`, `free`,
`link`, `designer` only. -/
theorem C1_counterexample :
    loadPatternsCache (cachePatterns [exP1.getFullData exEnv]) ≠
      [exP1.getFullData exEnv] := by decide

/-- **C1, amended.**  The snapshot/load round-trip reproduces exactly the
constructor fields of each entity (given names/designer/brand already in
normalized form, which load re-applies): every loaded entity equals the
freshly constructed entity from the stored base fields.  Hydration-derived
fields (`currency`, `price`, `recyarn`, `category`, `fiberContent`) and the
hydrated `info` string are reset to their constructor state rather than
reproduced. -/
theorem C1_roundtrip_base_fields (ps : List Pattern) (ss : List Shop) (ys : List Yarn)
    (hp : ∀ p ∈ ps, pyTitle (pyStrip p.name) = p.name ∧
      pyTitle (pyStrip p.designer) = p.designer)
    (hs : ∀ s ∈ ss, pyTitle (pyStrip s.name) = s.name)
    (hy : ∀ y ∈ ys, pyTitle (pyStrip y.name) = y.name ∧
      pyTitle (pyStrip y.brand) = y.brand) :
    loadPatternsCache (cachePatterns ps) =
      ps.map (fun p => mkPattern p.id p.name p.free p.link p.designer) ∧
    loadShopsCache (cacheShops ss) =
      ss.map (fun s => mkShop s.id s.name s.lat s.long s.city) ∧
    loadYarnsCache (cacheYarns ys) =
      ys.map (fun y => mkYarn y.id y.name y.brand y.weight) := by
  refine ⟨?_, ?_, ?_⟩
  · unfold loadPatternsCache cachePatterns
    rw [List.map_map]
    exact List.map_congr_left fun p hpp => by
      obtain ⟨h1, h2⟩ := hp p hpp
      simp [Function.comp, h1, h2]
  · unfold loadShopsCache cacheShops
    rw [List.map_map]
    exact List.map_congr_left fun s hss => by
      simp [Function.comp, hs s hss]
  · unfold loadYarnsCache cacheYarns
    rw [List.map_map]
    exact List.map_congr_left fun y hyy => by
      obtain ⟨h1, h2⟩ := hy y hyy
      simp [Function.comp, h1, h2]

/-- Witness for `C1_roundtrip_base_fields` on singleton collections. -/
theorem C1_roundtrip_base_fields_witness :
    loadPatternsCache (cachePatterns [exP1]) =
      [exP1].map (fun p => mkPattern p.id p.name p.free p.link p.designer) ∧
    loadShopsCache (cacheShops [exS]) =
      [exS].map (fun s => mkShop s.id s.name s.lat s.long s.city) ∧
    loadYarnsCache (cacheYarns [exY1]) =
      [exY1].map (fun y => mkYarn y.id y.name y.brand y.weight) :=
  C1_roundtrip_base_fields [exP1] [exS] [exY1] (by decide) (by decide) (by decide)

/-! ## Claims C2, C6: yarn-recommendation network builder -/

/-- **C2, counterexample.**  For a designer with no matching patterns the
builder returns the bare empty graph (the `graphOnly` shape of source line
284), not an (empty graph, empty top-5 list) pair as the claim states. -/
theorem C2_counterexample :
    createYarnGraph exEnv exCat "Nobody" = .graphOnly YGraph.empty ∧
    (YarnGraphResult.graphOnly YGraph.empty) ≠ .withTop YGraph.empty [] := by decide

/-- **C2, amended.**  For every designer name with zero matching patterns
(after normalization), the builder returns the empty graph alone — without
a top-5 list — and does not raise. -/
theorem C2_empty_designer_graph_only (env : Int → PatternDetail) (cat : Catalog)
    (designer : String)
    (h : ∀ p ∈ cat.patterns, p.designer ≠ pyTitle (pyStrip designer)) :
    createYarnGraph env cat designer = .graphOnly YGraph.empty := by
  unfold createYarnGraph
  have hf : cat.patterns.filter (fun p => p.designer == pyTitle (pyStrip designer)) = [] :=
    List.filter_eq_nil_iff.mpr fun p hp => by simpa using h p hp
  simp [hf]

/-- Witness for `C2_empty_designer_graph_only` with designer `"Nobody"`. -/
theorem C2_empty_designer_graph_only_witness :
    createYarnGraph exEnv exCat "Nobody" = .graphOnly YGraph.empty :=
  C2_empty_designer_graph_only exEnv exCat "Nobody" (by decide)

/-- **C6, confirmed.**  On the spec's worked example — designer Jane Doe,
`P1` recommending `Y1`, `Y2` and `P2` recommending `Y1` — the builder
produces exactly the nodes `P1`, `P2`, `"Y1 by B1"`, `"Y2 by B2"`, exactly
the edges `P1–Y1`, `P1–Y2`, `P2–Y1`, and the top list
`[("Y1 by B1", 2), ("Y2 by B2", 1)]`.  The second conjunct exhibits the
general ordering of `most_common`: descending count with ties broken by
first-encountered order (`"B"` stays ahead of the equal-count `"A"`). -/
theorem C6_example_network :
    createYarnGraph exEnv exCat "Jane Doe" =
      .withTop ⟨[("P1", some "pattern"), ("Y1 by B1", some "yarn"),
          ("Y2 by B2", some "yarn"), ("P2", some "pattern")],
        [("P1", "Y1 by B1"), ("P1", "Y2 by B2"), ("P2", "Y1 by B1")]⟩
        [("Y1 by B1", 2), ("Y2 by B2", 1)] ∧
    mostCommon 5 ["B", "A", "A", "B", "C"] = [("B", 2), ("A", 2), ("C", 1)] := by
  decide

/-! ## Helper lemmas: shop-proximity builder, node phase -/

theorem keys_addNodeS_mem {nodes : List (String × Shop)} {key k : String} {s : Shop} :
    k ∈ (addNodeS nodes key s).map Prod.fst ↔ k ∈ nodes.map Prod.fst ∨ k = key := by
  unfold addNodeS
  by_cases h : nodes.any fun p => p.1 == key
  · rw [if_pos h]
    have hkeys : ((nodes.map fun p => if p.1 == key then (p.1, s) else p).map Prod.fst) =
        nodes.map Prod.fst := by
      rw [List.map_map]
      exact List.map_congr_left fun p _ => by
        show ((if p.1 == key then (p.1, s) else p)).1 = p.1
        split <;> rfl
    rw [hkeys]
    constructor
    · exact Or.inl
    · rintro (hk | rfl)
      · exact hk
      · obtain ⟨p, hp, hpk⟩ := List.any_eq_true.mp h
        exact List.mem_map.mpr ⟨p, hp, eq_of_beq hpk⟩
  · rw [if_neg h]
    simp

theorem mem_addNodeS_entry {nodes : List (String × Shop)} {key : String} {s : Shop}
    {kv : String × Shop} (h : kv ∈ addNodeS nodes key s) :
    kv ∈ nodes ∨ kv = (key, s) := by
  unfold addNodeS at h
  split at h
  · obtain ⟨p, hp, hpe⟩ := List.mem_map.mp h
    by_cases hpk : p.1 == key
    · right
      rw [← hpe, if_pos hpk]
      rw [eq_of_beq hpk]
    · left
      rw [← hpe, if_neg hpk]
      exact hp
  · rcases List.mem_append.mp h with h1 | h2
    · exact Or.inl h1
    · right; simpa using h2

theorem shopNodesAux_cons_included {s : Shop} {cla clo : ℝ}
    (h : shopIncluded s cla clo) (rest : List Shop) (acc : List (String × Shop)) :
    shopNodesAux cla clo (s :: rest) acc =
      shopNodesAux cla clo rest (addNodeS acc (shopLabel s) s) := by
  obtain ⟨la, lo, hla, hlo, hz1, hz2, hd⟩ := h
  rw [shopNodesAux]
  simp [hla, hlo, hz1, hz2, hd]

theorem shopNodesAux_cons_excluded {s : Shop} {cla clo : ℝ}
    (h : ¬ shopIncluded s cla clo) (rest : List Shop) (acc : List (String × Shop)) :
    shopNodesAux cla clo (s :: rest) acc = shopNodesAux cla clo rest acc := by
  rw [shopNodesAux]
  rcases hla : s.lat with _ | la <;> rcases hlo : s.long with _ | lo <;>
    simp only [hla, hlo]
  split_ifs with h1 h2
  · exact absurd ⟨la, lo, hla, hlo, h1.1, h1.2, h2⟩ h
  · rfl
  · rfl

theorem mem_keys_shopNodesAux (cla clo : ℝ) (l : List Shop) :
    ∀ (acc : List (String × Shop)) (k : String),
      (k ∈ (shopNodesAux cla clo l acc).map Prod.fst ↔
        k ∈ acc.map Prod.fst ∨ ∃ s ∈ l, shopIncluded s cla clo ∧ shopLabel s = k) := by
  induction l with
  | nil => intro acc k; rw [shopNodesAux]; simp
  | cons s rest ih =>
    intro acc k
    by_cases hinc : shopIncluded s cla clo
    · rw [shopNodesAux_cons_included hinc, ih, keys_addNodeS_mem]
      constructor
      · rintro ((h | rfl) | ⟨x, hx, hxi, hxl⟩)
        · exact Or.inl h
        · exact Or.inr ⟨s, List.mem_cons_self s rest, hinc, rfl⟩
        · exact Or.inr ⟨x, List.mem_cons_of_mem s hx, hxi, hxl⟩
      · rintro (h | ⟨x, hx, hxi, hxl⟩)
        · exact Or.inl (Or.inl h)
        · rcases List.mem_cons.mp hx with rfl | hxr
          · exact Or.inl (Or.inr hxl.symm)
          · exact Or.inr ⟨x, hxr, hxi, hxl⟩
    · rw [shopNodesAux_cons_excluded hinc, ih]
      constructor
      · rintro (h | ⟨x, hx, hxi, hxl⟩)
        · exact Or.inl h
        · exact Or.inr ⟨x, List.mem_cons_of_mem s hx, hxi, hxl⟩
      · rintro (h | ⟨x, hx, hxi, hxl⟩)
        · exact Or.inl h
        · rcases List.mem_cons.mp hx with rfl | hxr
          · exact absurd hxi hinc
          · exact Or.inr ⟨x, hxr, hxi, hxl⟩

theorem shopNodesAux_entry (cla clo : ℝ) (l : List Shop) :
    ∀ (acc : List (String × Shop)) (kv : String × Shop),
      kv ∈ shopNodesAux cla clo l acc →
      kv ∈ acc ∨ ∃ s ∈ l, shopIncluded s cla clo ∧ kv = (shopLabel s, s) := by
  induction l with
  | nil => intro acc kv h; rw [shopNodesAux] at h; exact Or.inl h
  | cons s rest ih =>
    intro acc kv h
    by_cases hinc : shopIncluded s cla clo
    · rw [shopNodesAux_cons_included hinc] at h
      rcases ih _ kv h with hacc | ⟨x, hx, hxi, hxe⟩
      · rcases mem_addNodeS_entry hacc with h1 | h2
        · exact Or.inl h1
        · exact Or.inr ⟨s, List.mem_cons_self s rest, hinc, h2⟩
      · exact Or.inr ⟨x, List.mem_cons_of_mem s hx, hxi, hxe⟩
    · rw [shopNodesAux_cons_excluded hinc] at h
      rcases ih _ kv h with hacc | ⟨x, hx, hxi, hxe⟩
      · exact Or.inl hacc
      · exact Or.inr ⟨x, List.mem_cons_of_mem s hx, hxi, hxe⟩

theorem mem_shopGraphNodes_iff {shops : List Shop} {cla clo : ℝ} {s : Shop}
    (hs : s ∈ shops) (hnd : (shops.map shopLabel).Nodup) :
    shopLabel s ∈ (shopGraphNodes shops cla clo).map Prod.fst ↔
      shopIncluded s cla clo := by
  unfold shopGraphNodes
  rw [mem_keys_shopNodesAux]
  simp only [List.map_nil, List.not_mem_nil, false_or]
  constructor
  · rintro ⟨x, hx, hxi, hxl⟩
    have hxs : x = s := List.inj_on_of_nodup_map hnd hx hs hxl
    exact hxs ▸ hxi
  · intro h
    exact ⟨s, hs, h, rfl⟩

theorem shopGraphNodes_value {shops : List Shop} {cla clo : ℝ} {s v : Shop}
    (hs : s ∈ shops) (hnd : (shops.map shopLabel).Nodup)
    (h : (shopLabel s, v) ∈ shopGraphNodes shops cla clo) : v = s := by
  rcases shopNodesAux_entry cla clo shops [] _ h with h0 | ⟨x, hx, _, hxe⟩
  · exact absurd h0 (List.not_mem_nil _)
  · have h1 : shopLabel s = shopLabel x := congrArg Prod.fst hxe
    have h2 : v = x := congrArg Prod.snd hxe
    have hxs : x = s := List.inj_on_of_nodup_map hnd hx hs h1.symm
    rw [h2, hxs]

theorem shopGraphNodes_self_mem {shops : List Shop} {cla clo : ℝ} {s : Shop}
    (hs : s ∈ shops) (hnd : (shops.map shopLabel).Nodup)
    (hinc : shopIncluded s cla clo) :
    (shopLabel s, s) ∈ shopGraphNodes shops cla clo := by
  have hk : shopLabel s ∈ (shopGraphNodes shops cla clo).map Prod.fst :=
    (mem_shopGraphNodes_iff hs hnd).mpr hinc
  obtain ⟨p, hp, hpe⟩ := List.mem_map.mp hk
  rcases p with ⟨k, v⟩
  simp only at hpe
  subst hpe
  have hv : v = s := shopGraphNodes_value hs hnd hp
  rwa [hv] at hp

/-! ## Helper lemmas: shop-proximity builder, edge phase -/

theorem edgeMatches_congr {g f : (String × String) × ℝ} (h : g.1 = f.1)
    (a b : String) : edgeMatches g a b = edgeMatches f a b := by
  unfold edgeMatches; rw [h]

theorem edgeMatches_self (a b : String) (w : ℝ) :
    edgeMatches ((a, b), w) a b = true := by simp [edgeMatches]

theorem edgeMatches_comm (e : (String × String) × ℝ) (a b : String) :
    edgeMatches e a b = edgeMatches e b a := by
  unfold edgeMatches; exact Bool.or_comm _ _

theorem edgeMatches_both {e : (String × String) × ℝ} {a b c d : String}
    (h1 : edgeMatches e a b = true) (h2 : edgeMatches e c d = true) :
    (c = a ∧ d = b) ∨ (c = b ∧ d = a) := by
  simp only [edgeMatches, Bool.or_eq_true, Bool.and_eq_true, beq_iff_eq] at h1 h2
  rcases h1 with ⟨ha, hb⟩ | ⟨ha, hb⟩ <;> rcases h2 with ⟨hc, hd⟩ | ⟨hc, hd⟩
  · exact Or.inl ⟨hc.symm.trans ha, hd.symm.trans hb⟩
  · exact Or.inr ⟨hd.symm.trans hb, hc.symm.trans ha⟩
  · exact Or.inr ⟨hc.symm.trans ha, hd.symm.trans hb⟩
  · exact Or.inl ⟨hd.symm.trans hb, hc.symm.trans ha⟩

theorem edgeMatches_fst_update {f : (String × String) × ℝ} {a b : String} {w : ℝ} :
    ((if edgeMatches f a b then (f.1, w) else f)).1 = f.1 := by split <;> rfl

theorem edgeLookup_nil (a b : String) : edgeLookup [] a b = none := rfl

theorem edgeLookup_cons (e : (String × String) × ℝ)
    (es : List ((String × String) × ℝ)) (a b : String) :
    edgeLookup (e :: es) a b =
      if edgeMatches e a b then some e.2 else edgeLookup es a b := by
  unfold edgeLookup
  rw [List.find?_cons]
  cases h : edgeMatches e a b <;> simp [h]

theorem lookup_update_self {es : List ((String × String) × ℝ)} {a b : String}
    {w : ℝ} (h : (es.any fun e => edgeMatches e a b) = true) :
    edgeLookup (es.map fun e => if edgeMatches e a b then (e.1, w) else e) a b =
      some w := by
  induction es with
  | nil => cases h
  | cons e rest ih =>
    rw [List.map_cons, edgeLookup_cons]
    by_cases hm : edgeMatches e a b
    · rw [if_pos hm]
      have hm' : edgeMatches ((e.1, w) : (String × String) × ℝ) a b = true :=
        (edgeMatches_congr rfl a b).trans hm
      rw [if_pos hm']
    · rw [if_neg hm, if_neg hm]
      apply ih
      simpa [List.any_cons, hm] using h

theorem lookup_append_self {es : List ((String × String) × ℝ)} {a b : String}
    {w : ℝ} (h : (es.any fun e => edgeMatches e a b) = false) :
    edgeLookup (es ++ [((a, b), w)]) a b = some w := by
  induction es with
  | nil =>
    rw [List.nil_append, edgeLookup_cons, if_pos (edgeMatches_self a b w)]
  | cons e rest ih =>
    have h' : (edgeMatches e a b || rest.any fun f => edgeMatches f a b) = false := by
      simpa [List.any_cons] using h
    rcases Bool.or_eq_false_iff.mp h' with ⟨hm, hr⟩
    rw [List.cons_append, edgeLookup_cons, if_neg (by simp [hm])]
    exact ih hr

theorem edgeLookup_addEdgeS_self (es : List ((String × String) × ℝ))
    (a b : String) (w : ℝ) : edgeLookup (addEdgeS es a b w) a b = some w := by
  unfold addEdgeS
  by_cases h : (es.any fun e => edgeMatches e a b) = true
  · rw [if_pos h]; exact lookup_update_self h
  · rw [if_neg h]
    exact lookup_append_self (by simpa using h)

theorem edgeLookup_comm (es : List ((String × String) × ℝ)) (a b : String) :
    edgeLookup es a b = edgeLookup es b a := by
  induction es with
  | nil => rfl
  | cons e rest ih => rw [edgeLookup_cons, edgeLookup_cons, edgeMatches_comm, ih]

theorem lookup_map_update_other {es : List ((String × String) × ℝ)}
    {a b c d : String} {w : ℝ}
    (hne : ¬((c = a ∧ d = b) ∨ (c = b ∧ d = a))) :
    edgeLookup (es.map fun e => if edgeMatches e a b then (e.1, w) else e) c d =
      edgeLookup es c d := by
  induction es with
  | nil => rfl
  | cons e rest ih =>
    rw [List.map_cons, edgeLookup_cons, edgeLookup_cons]
    by_cases hm : edgeMatches e a b
    · have hcd : edgeMatches e c d = false := by
        by_contra hx
        have hx' : edgeMatches e c d = true := by
          cases hb2 : edgeMatches e c d
          · exact absurd hb2 hx
          · rfl
        exact hne (edgeMatches_both hm hx')
      have h1 : edgeMatches ((e.1, w) : (String × String) × ℝ) c d =
          edgeMatches e c d := edgeMatches_congr rfl c d
      rw [if_pos hm,
        if_neg (show ¬ edgeMatches ((e.1, w) : (String × String) × ℝ) c d = true by
          simp [h1, hcd]),
        if_neg (show ¬ edgeMatches e c d = true by simp [hcd])]
      exact ih
    · rw [if_neg hm]
      by_cases hcd : edgeMatches e c d
      · rw [if_pos hcd, if_pos hcd]
      · rw [if_neg hcd, if_neg hcd]; exact ih

theorem lookup_append_single_other {es : List ((String × String) × ℝ)}
    {a b c d : String} {w : ℝ}
    (hne : ¬((c = a ∧ d = b) ∨ (c = b ∧ d = a))) :
    edgeLookup (es ++ [((a, b), w)]) c d = edgeLookup es c d := by
  induction es with
  | nil =>
    have hf : edgeMatches ((a, b), w) c d = false := by
      by_contra hx
      have hx' : edgeMatches ((a, b), w) c d = true := by
        cases hb2 : edgeMatches ((a, b), w) c d
        · exact absurd hb2 hx
        · rfl
      exact hne (edgeMatches_both (edgeMatches_self a b w) hx')
    rw [List.nil_append, edgeLookup_cons,
      if_neg (show ¬ edgeMatches ((a, b), w) c d = true by simp [hf])]
  | cons e rest ih =>
    rw [List.cons_append, edgeLookup_cons, edgeLookup_cons]
    by_cases hcd : edgeMatches e c d
    · rw [if_pos hcd, if_pos hcd]
    · rw [if_neg hcd, if_neg hcd]; exact ih

theorem lookup_addEdgeS_other {es : List ((String × String) × ℝ)}
    {a b c d : String} {w : ℝ}
    (hne : ¬((c = a ∧ d = b) ∨ (c = b ∧ d = a))) :
    edgeLookup (addEdgeS es a b w) c d = edgeLookup es c d := by
  unfold addEdgeS
  by_cases h : (es.any fun e => edgeMatches e a b) = true
  · rw [if_pos h]; exact lookup_map_update_other hne
  · rw [if_neg h]; exact lookup_append_single_other hne

theorem isSome_addEdgeS {es : List ((String × String) × ℝ)} (a b : String)
    (w : ℝ) {c d : String} (h : (edgeLookup es c d).isSome = true) :
    (edgeLookup (addEdgeS es a b w) c d).isSome = true := by
  by_cases hne : (c = a ∧ d = b) ∨ (c = b ∧ d = a)
  · rcases hne with ⟨rfl, rfl⟩ | ⟨rfl, rfl⟩
    · rw [edgeLookup_addEdgeS_self]; rfl
    · rw [edgeLookup_comm, edgeLookup_addEdgeS_self]; rfl
  · rw [lookup_addEdgeS_other hne]; exact h

theorem isSome_addEdgesFrom_preserve {a : String} {sa : Shop} :
    ∀ (sub : List (String × Shop)) (es : List ((String × String) × ℝ))
      {c d : String}, (edgeLookup es c d).isSome = true →
      (edgeLookup (addEdgesFrom a sa sub es) c d).isSome = true := by
  intro sub
  induction sub with
  | nil => exact fun es _ _ h => h
  | cons p rest ih =>
    intro es c d h
    rcases p with ⟨b, sb⟩
    rw [addEdgesFrom]
    apply ih
    by_cases hba : b ≠ a
    · rw [if_pos hba]; exact isSome_addEdgeS a b _ h
    · rw [if_neg hba]; exact h

theorem isSome_addEdgesFrom_self {a : String} {sa : Shop} :
    ∀ (sub : List (String × Shop)) (es : List ((String × String) × ℝ))
      {b : String} {sb : Shop}, (b, sb) ∈ sub → b ≠ a →
      (edgeLookup (addEdgesFrom a sa sub es) a b).isSome = true := by
  intro sub
  induction sub with
  | nil => intro es b sb h _; exact absurd h (List.not_mem_nil _)
  | cons p rest ih =>
    intro es b sb hmem hba
    rcases p with ⟨c, sc⟩
    rw [addEdgesFrom]
    rcases List.mem_cons.mp hmem with heq | hrest
    · injection heq with h1 h2
      subst h1
      apply isSome_addEdgesFrom_preserve rest
      rw [if_pos hba, edgeLookup_addEdgeS_self]
      rfl
    · exact ih _ hrest hba

theorem isSome_shopEdgesLoop_preserve {nodes : List (String × Shop)} :
    ∀ (outer : List (String × Shop)) (es : List ((String × String) × ℝ))
      {c d : String}, (edgeLookup es c d).isSome = true →
      (edgeLookup (shopEdgesLoop nodes outer es) c d).isSome = true := by
  intro outer
  induction outer with
  | nil => exact fun es _ _ h => h
  | cons p rest ih =>
    intro es c d h
    rcases p with ⟨a, sa⟩
    rw [shopEdgesLoop]
    exact ih _ (isSome_addEdgesFrom_preserve nodes es h)

theorem isSome_shopEdgesLoop {nodes : List (String × Shop)} :
    ∀ (outer : List (String × Shop)) (es : List ((String × String) × ℝ))
      {a b : String} {sa sb : Shop},
      (a, sa) ∈ outer → (b, sb) ∈ nodes → b ≠ a →
      (edgeLookup (shopEdgesLoop nodes outer es) a b).isSome = true := by
  intro outer
  induction outer with
  | nil => intro es a b sa sb h _ _; exact absurd h (List.not_mem_nil _)
  | cons p rest ih =>
    intro es a b sa sb ha hb hba
    rcases p with ⟨c, sc⟩
    rw [shopEdgesLoop]
    rcases List.mem_cons.mp ha with heq | hrest
    · injection heq with h1 h2
      subst h1
      exact isSome_shopEdgesLoop_preserve rest _ (isSome_addEdgesFrom_self nodes es hb hba)
    · exact ih _ hrest hb hba

theorem goodEdges_addEdgeS {nodes : List (String × Shop)}
    {es : List ((String × String) × ℝ)} {a b : String} {sa sb : Shop} {w : ℝ}
    (hg : goodEdges nodes es) (ha : (a, sa) ∈ nodes) (hb : (b, sb) ∈ nodes)
    (hab : a ≠ b)
    (hw : w = calcDistance (optR sa.lat) (optR sa.long) (optR sb.lat) (optR sb.long)) :
    goodEdges nodes (addEdgeS es a b w) := by
  intro e he
  unfold addEdgeS at he
  split at he
  · obtain ⟨f, hf, hfe⟩ := List.mem_map.mp he
    by_cases hm : edgeMatches f a b
    · rw [if_pos hm] at hfe
      subst hfe
      simp only [edgeMatches, Bool.or_eq_true, Bool.and_eq_true, beq_iff_eq] at hm
      rcases hm with ⟨h1, h2⟩ | ⟨h1, h2⟩
      · refine ⟨sa, sb, ?_, ?_, ?_, hw⟩
        · show (f.1.1, sa) ∈ nodes; rw [h1]; exact ha
        · show (f.1.2, sb) ∈ nodes; rw [h2]; exact hb
        · show f.1.1 ≠ f.1.2; rw [h1, h2]; exact hab
      · refine ⟨sb, sa, ?_, ?_, ?_, ?_⟩
        · show (f.1.1, sb) ∈ nodes; rw [h1]; exact hb
        · show (f.1.2, sa) ∈ nodes; rw [h2]; exact ha
        · show f.1.1 ≠ f.1.2; rw [h1, h2]; exact hab.symm
        · show w = _; rw [hw, calcDistance_comm]
    · rw [if_neg hm] at hfe
      subst hfe
      exact hg f hf
  · rcases List.mem_append.mp he with h1 | h2
    · exact hg e h1
    · have he2 : e = ((a, b), w) := by simpa using h2
      subst he2
      exact ⟨sa, sb, ha, hb, hab, hw⟩

theorem goodEdges_addEdgesFrom {nodes : List (String × Shop)} {a : String}
    {sa : Shop} (ha : (a, sa) ∈ nodes) :
    ∀ (sub : List (String × Shop)), (∀ p ∈ sub, p ∈ nodes) →
      ∀ es, goodEdges nodes es → goodEdges nodes (addEdgesFrom a sa sub es) := by
  intro sub
  induction sub with
  | nil => exact fun _ es hg => hg
  | cons p rest ih =>
    intro hsub es hg
    rcases p with ⟨b, sb⟩
    rw [addEdgesFrom]
    apply ih fun q hq => hsub q (List.mem_cons_of_mem _ hq)
    by_cases hba : b ≠ a
    · rw [if_pos hba]
      exact goodEdges_addEdgeS hg ha (hsub (b, sb) (List.mem_cons_self _ _))
        (Ne.symm hba) rfl
    · rw [if_neg hba]; exact hg

theorem goodEdges_shopEdgesLoop {nodes : List (String × Shop)} :
    ∀ (outer : List (String × Shop)), (∀ p ∈ outer, p ∈ nodes) →
      ∀ es, goodEdges nodes es → goodEdges nodes (shopEdgesLoop nodes outer es) := by
  intro outer
  induction outer with
  | nil => exact fun _ es hg => hg
  | cons p rest ih =>
    intro houter es hg
    rcases p with ⟨a, sa⟩
    rw [shopEdgesLoop]
    exact ih (fun q hq => houter q (List.mem_cons_of_mem _ hq)) _
      (goodEdges_addEdgesFrom (houter (a, sa) (List.mem_cons_self _ _)) nodes
        (fun q hq => hq) es hg)

theorem distinctPairs_addEdgeS {es : List ((String × String) × ℝ)}
    {a b : String} {w : ℝ} (h : distinctPairs es) :
    distinctPairs (addEdgeS es a b w) := by
  unfold addEdgeS
  split
  · unfold distinctPairs at h ⊢
    rw [List.pairwise_map]
    refine h.imp ?_
    intro e f hef
    rw [edgeMatches_congr (edgeMatches_fst_update (f := f)) _ _,
      show ((if edgeMatches e a b then (e.1, w) else e)).1 = e.1 from
        edgeMatches_fst_update]
    exact hef
  · rename_i hany
    unfold distinctPairs at h ⊢
    rw [List.pairwise_append]
    refine ⟨h, List.pairwise_singleton _ _, ?_⟩
    intro e he f hf
    have hf' : f = ((a, b), w) := by simpa using hf
    subst hf'
    by_contra hx
    have hx' : edgeMatches ((a, b), w) e.1.1 e.1.2 = true := by
      cases hb2 : edgeMatches ((a, b), w) e.1.1 e.1.2
      · exact absurd hb2 hx
      · rfl
    have hm : edgeMatches e a b = true := by
      simp only [edgeMatches, Bool.or_eq_true, Bool.and_eq_true, beq_iff_eq] at hx' ⊢
      rcases hx' with ⟨h1, h2⟩ | ⟨h1, h2⟩
      · exact Or.inl ⟨h1.symm, h2.symm⟩
      · exact Or.inr ⟨h2.symm, h1.symm⟩
    exact hany (List.any_eq_true.mpr ⟨e, he, hm⟩)

theorem distinctPairs_addEdgesFrom {a : String} {sa : Shop} :
    ∀ (sub : List (String × Shop)) (es : List ((String × String) × ℝ)),
      distinctPairs es → distinctPairs (addEdgesFrom a sa sub es) := by
  intro sub
  induction sub with
  | nil => exact fun es h => h
  | cons p rest ih =>
    intro es h
    rcases p with ⟨b, sb⟩
    rw [addEdgesFrom]
    apply ih
    by_cases hba : b ≠ a
    · rw [if_pos hba]; exact distinctPairs_addEdgeS h
    · rw [if_neg hba]; exact h

theorem distinctPairs_shopEdgesLoop {nodes : List (String × Shop)} :
    ∀ (outer : List (String × Shop)) (es : List ((String × String) × ℝ)),
      distinctPairs es → distinctPairs (shopEdgesLoop nodes outer es) := by
  intro outer
  induction outer with
  | nil => exact fun es h => h
  | cons p rest ih =>
    intro es h
    rcases p with ⟨a, sa⟩
    rw [shopEdgesLoop]
    exact ih _ (distinctPairs_addEdgesFrom nodes es h)

theorem shopGraphEdges_value {shops : List Shop} {cla clo : ℝ} {s t : Shop}
    (hs : s ∈ shops) (ht : t ∈ shops) (hnd : (shops.map shopLabel).Nodup)
    (hincs : shopIncluded s cla clo) (hinct : shopIncluded t cla clo)
    (hlab : shopLabel s ≠ shopLabel t) :
    edgeLookup (shopGraphEdges shops cla clo) (shopLabel s) (shopLabel t) =
      some (calcDistance (optR s.lat) (optR s.long) (optR t.lat) (optR t.long)) := by
  have hmemS : (shopLabel s, s) ∈ shopGraphNodes shops cla clo :=
    shopGraphNodes_self_mem hs hnd hincs
  have hmemT : (shopLabel t, t) ∈ shopGraphNodes shops cla clo :=
    shopGraphNodes_self_mem ht hnd hinct
  have hsome := isSome_shopEdgesLoop (shopGraphNodes shops cla clo) []
    hmemS hmemT (Ne.symm hlab)
  have hgood : goodEdges (shopGraphNodes shops cla clo) (shopGraphEdges shops cla clo) :=
    goodEdges_shopEdgesLoop (shopGraphNodes shops cla clo) (fun q hq => hq) []
      (fun e he => absurd he (List.not_mem_nil e))
  obtain ⟨w, hw⟩ := Option.isSome_iff_exists.mp hsome
  unfold edgeLookup at hw
  obtain ⟨e, hfind, _⟩ := Option.map_eq_some'.mp hw
  have hmem : e ∈ shopEdgesLoop (shopGraphNodes shops cla clo)
      (shopGraphNodes shops cla clo) [] :=
    List.mem_of_find?_eq_some hfind
  have hpred : edgeMatches e (shopLabel s) (shopLabel t) = true := by
    have := List.find?_some hfind
    simpa using this
  obtain ⟨sx, sy, hx, hy, _, hwv⟩ := hgood e hmem
  simp only [edgeMatches, Bool.or_eq_true, Bool.and_eq_true, beq_iff_eq] at hpred
  have hval : e.2 = calcDistance (optR s.lat) (optR s.long) (optR t.lat) (optR t.long) := by
    rcases hpred with ⟨h1, h2⟩ | ⟨h1, h2⟩
    · have hsx : sx = s := shopGraphNodes_value hs hnd (h1 ▸ hx)
      have hsy : sy = t := shopGraphNodes_value ht hnd (h2 ▸ hy)
      rw [hwv, hsx, hsy]
    · have hsx : sx = t := shopGraphNodes_value ht hnd (h1 ▸ hx)
      have hsy : sy = s := shopGraphNodes_value hs hnd (h2 ▸ hy)
      rw [hwv, hsx, hsy, calcDistance_comm]
  unfold shopGraphEdges edgeLookup
  rw [hfind, Option.map_some', hval]

/-! ## Claim C9: shop-proximity graph -/

/-- **C9, counterexample.**  The claim's inclusion condition — both
coordinates present and Haversine distance to the city point at most 50
miles — holds for a shop sitting exactly on the equator at the city point
itself, yet the builder excludes it (its latitude `0.0` is falsy under
`if shop.lat and shop.long`), leaving no nodes and a `None` return. -/
theorem C9_counterexample :
    specShopIncluded exS0 0 (-75) ∧ createShopGraph [exS0] 0 (-75) = none := by
  constructor
  · refine ⟨rfl, rfl, ?_⟩
    show calcDistance (optR exS0.lat) (optR exS0.long) 0 (-75) ≤ 50
    rw [show optR exS0.lat = (0 : ℝ) from rfl,
      show optR exS0.long = (-75 : ℝ) from rfl, calcDistance_self]
    norm_num
  · simp [createShopGraph, shopGraphNodes, shopNodesAux, exS0, mkShop]

/-- **C9, amended.**  A shop is included in the graph if and only if both
of its coordinates are present **and truthy (nonzero)** and its Haversine
distance to the resolved city point is at most 50 miles (so a shop
strictly beyond 50 miles, with a null coordinate, or with a zero
coordinate, is excluded); over the included shops (with distinct labels)
every unordered pair of distinct shops carries an edge weighted by the
Haversine distance between the two shops — not their distance to the city
centre — and no unordered pair carries more than one edge. -/
theorem C9_shop_graph_inclusion_and_completeness
    (shops : List Shop) (cityLat cityLong : ℝ) (s t : Shop)
    (hs : s ∈ shops) (ht : t ∈ shops)
    (hnd : (shops.map shopLabel).Nodup) :
    (shopLabel s ∈ (shopGraphNodes shops cityLat cityLong).map Prod.fst ↔
      shopIncluded s cityLat cityLong) ∧
    (shopIncluded s cityLat cityLong → shopIncluded t cityLat cityLong →
      shopLabel s ≠ shopLabel t →
      edgeLookup (shopGraphEdges shops cityLat cityLong)
        (shopLabel s) (shopLabel t) =
        some (calcDistance (optR s.lat) (optR s.long) (optR t.lat) (optR t.long))) ∧
    distinctPairs (shopGraphEdges shops cityLat cityLong) :=
  ⟨mem_shopGraphNodes_iff hs hnd,
   fun h1 h2 h3 => shopGraphEdges_value hs ht hnd h1 h2 h3,
   distinctPairs_shopEdgesLoop (shopGraphNodes shops cityLat cityLong)
     [] List.Pairwise.nil⟩

/-- Witness for `C9_shop_graph_inclusion_and_completeness` on two distinct
shops at the city point `(1, 1)`. -/
theorem C9_shop_graph_witness :
    (shopLabel exS ∈ (shopGraphNodes [exS, exS2] 1 1).map Prod.fst ↔
      shopIncluded exS 1 1) ∧
    (shopIncluded exS 1 1 → shopIncluded exS2 1 1 →
      shopLabel exS ≠ shopLabel exS2 →
      edgeLookup (shopGraphEdges [exS, exS2] 1 1) (shopLabel exS) (shopLabel exS2) =
        some (calcDistance (optR exS.lat) (optR exS.long)
          (optR exS2.lat) (optR exS2.long))) ∧
    distinctPairs (shopGraphEdges [exS, exS2] 1 1) :=
  C9_shop_graph_inclusion_and_completeness [exS, exS2] 1 1 exS exS2
    (List.mem_cons_self _ _) (List.mem_cons_of_mem _ (List.mem_cons_self _ _))
    (by decide)

end FAF
